import Mathlib

/-!
Verification of the call-session orchestration core (RingRTC Android JNI
surface).  The repository source under scrutiny is the JNI wrapper file
`src/rust/src/android/api/jni_call_manager.rs`; the call manager, call state
machine, group-call client registry and request correlator it delegates to
live in modules of the same repository that are not part of the provided
sources, so those parts are modelled from the specification (each such
definition says so in its doc comment).  Logic that appears verbatim in the
wrapper file (the audio-levels interval conversion, the `unwrap_or(Normal)`
hangup-type fallback, the `INVALID_CLIENT_ID` sentinel on creation failure)
is embedded directly from the source.
-/

namespace RingRTC

/-- Error kinds of the orchestrator, from spec section 7. -/
inductive Err where
  | InvalidState
  | UnknownCall
  | UnknownClient
  | PermissionDenied
  | DuplicateRequest
  | AllocationFailed
  deriving DecidableEq

/-- Media type of a 1:1 call, set at creation. -/
inductive CallMediaType where
  | Audio
  | Video
  deriving DecidableEq

/-- Bandwidth adaptation mode. -/
inductive DataMode where
  | Low
  | Normal
  | High
  deriving DecidableEq

/-- Terminal signal kind for a 1:1 call. -/
inductive HangupType where
  | Normal
  | Accepted
  | Declined
  | Busy
  | NeedPermission
  deriving DecidableEq

/-- Modelled from the spec: `signaling::HangupType::from_i32` (the signaling
module is not among the provided sources).  Maps the wire integer to the
`HangupType` enum in declaration order; unknown values map to `none`. -/
def HangupType.from_i32 (v : Int) : Option HangupType :=
  if v = 0 then some .Normal
  else if v = 1 then some .Accepted
  else if v = 2 then some .Declined
  else if v = 3 then some .Busy
  else if v = 4 then some .NeedPermission
  else none

/-- Reason recorded on a `Terminated` 1:1 call. -/
inductive TermReason where
  | LocalHangup
  | RemoteHangup (t : HangupType) (d : Nat)
  | RemoteBusy (d : Nat)
  | MessageSendFailure
  | Reset
  | Dropped
  deriving DecidableEq

/-- 1:1 call lifecycle states (`Idle` is represented by the absence of a
session in `CMState`). -/
inductive CallState where
  | Proceeding
  | Connecting
  | Reconnecting
  | Connected
  | Terminated (r : TermReason)
  deriving DecidableEq

/-- A state is terminal exactly when it is `Terminated`. -/
def CallState.isTerminal : CallState → Bool
  | .Terminated _ => true
  | _ => false

/-- Modelled from the spec: the singular 1:1 call context.  ICE candidates are
pairs (device id, opaque candidate payload); `pendingIce` buffers candidates
that arrived before `Connecting`, `appliedIce` records, in application order,
the candidates handed to the transport. -/
structure CallSession where
  call_id : Int
  media_type : CallMediaType
  local_device : Nat
  data_mode : DataMode
  audio_levels_interval : Option Nat
  state : CallState
  pendingIce : List (Nat × Nat)
  appliedIce : List (Nat × Nat)
  deriving DecidableEq

/-- Group-call client lifecycle states. -/
inductive GCState where
  | Created
  | GConnecting
  | GConnected
  | Joining
  | Joined
  | GReconnecting
  | Ended
  deriving DecidableEq

/-- Modelled from the spec: one active group-call client. -/
structure GroupClient where
  state : GCState
  audio_muted : Bool
  video_muted : Bool
  data_mode : DataMode
  raised_hand : Bool
  audio_levels_interval : Option Nat
  deriving DecidableEq

/-- Kind of a pending correlator entry. -/
inductive PendingKind where
  | HttpCorrelated
  | PeekQuery
  deriving DecidableEq

/-- Modelled from the spec: the whole orchestrator state — at most one 1:1
call session (`Idle` is `none`), the group-call client registry keyed by
client id with a monotone allocation counter, and the request correlator
table keyed by request id. -/
structure CMState where
  session : Option CallSession
  clients : List (Nat × GroupClient)
  nextClientId : Nat
  pending : List (Int × PendingKind)
  nextCallId : Int
  deriving DecidableEq

/-- Registry lookup by client id. -/
def lookupClient : List (Nat × GroupClient) → Nat → Option GroupClient
  | [], _ => none
  | (i, c) :: rest, cid => if i = cid then some c else lookupClient rest cid

/-- Remove a client id from the registry. -/
def removeClient : List (Nat × GroupClient) → Nat → List (Nat × GroupClient)
  | [], _ => []
  | (i, c) :: rest, cid =>
      if i = cid then removeClient rest cid else (i, c) :: removeClient rest cid

/-- Replace the client stored under an id. -/
def updateClient : List (Nat × GroupClient) → Nat → GroupClient → List (Nat × GroupClient)
  | [], _, _ => []
  | (i, c) :: rest, cid, c2 =>
      if i = cid then (i, c2) :: updateClient rest cid c2
      else (i, c) :: updateClient rest cid c2

/-- Correlator lookup by request id. -/
def lookupPending : List (Int × PendingKind) → Int → Option PendingKind
  | [], _ => none
  | (i, k) :: rest, rid => if i = rid then some k else lookupPending rest rid

/-- Remove a request id from the correlator. -/
def removePending : List (Int × PendingKind) → Int → List (Int × PendingKind)
  | [], _ => []
  | (i, k) :: rest, rid =>
      if i = rid then removePending rest rid else (i, k) :: removePending rest rid

/-- The JNI surface applies the successful new state and, on error, throws to
Java leaving the native state untouched (spec section 7: each operation is
all-or-nothing). -/
def applyResult (st : CMState) : Except Err CMState → CMState
  | .ok st2 => st2
  | .error _ => st

/-- Embedded from the source (`ringrtcProceed`, jni_call_manager.rs lines
149-153): a non-positive interval disables audio-level sampling, a positive
one becomes a duration of exactly that many milliseconds. -/
def audio_levels_interval_of (millis : Int) : Option Nat :=
  if millis ≤ 0 then none else some millis.toNat

/-- Modelled from the spec: `call(remote, media_type, local_device)` — only
valid when idle or when the previous session is terminal; creates a new
CallId and enters `Proceeding`; fails with `InvalidState` while a
non-terminal session is active. -/
def call (st : CMState) (mt : CallMediaType) (ld : Nat) : Except Err CMState :=
  let fresh : CallSession :=
    { call_id := st.nextCallId
      media_type := mt
      local_device := ld
      data_mode := .Normal
      audio_levels_interval := none
      state := .Proceeding
      pendingIce := []
      appliedIce := [] }
  match st.session with
  | some s =>
      if s.state.isTerminal then
        .ok { st with session := some fresh, nextCallId := st.nextCallId + 1 }
      else
        .error .InvalidState
  | none => .ok { st with session := some fresh, nextCallId := st.nextCallId + 1 }

/-- Modelled from the spec: `proceed(call_id, data_mode, audio_levels_interval)`
transitions `Proceeding → Connecting`, binds the media adaptation policy and
the (possibly disabled) sampling interval, and applies the buffered ICE
candidates in arrival order now that the transport exists. -/
def proceed (st : CMState) (cid : Int) (dm : DataMode) (interval : Option Nat) :
    Except Err CMState :=
  match st.session with
  | some s =>
      if s.call_id = cid then
        if s.state = .Proceeding then
          .ok { st with session := some { s with
                  state := .Connecting
                  data_mode := dm
                  audio_levels_interval := interval
                  appliedIce := s.appliedIce ++ s.pendingIce
                  pendingIce := [] } }
        else .error .InvalidState
      else .error .UnknownCall
  | none => .error .InvalidState

/-- Embedded from the source (`ringrtcProceed`): converts the raw millisecond
argument with `audio_levels_interval_of` and delegates to `proceed`. -/
def ringrtcProceed (st : CMState) (cid : Int) (dm : DataMode) (millis : Int) :
    Except Err CMState :=
  proceed st cid dm (audio_levels_interval_of millis)

/-- Modelled from the spec: `received_ice` buffers candidates that arrive
before `Connecting`, applies them directly once the transport exists, and
drops candidates for an unknown or terminated call (non-fatal). -/
def received_ice (st : CMState) (cid : Int) (dev : Nat) (batch : List Nat) :
    Except Err CMState :=
  match st.session with
  | some s =>
      if s.call_id = cid then
        match s.state with
        | .Proceeding =>
            .ok { st with session := some { s with
                    pendingIce := s.pendingIce ++ batch.map (fun c => (dev, c)) } }
        | .Terminated _ => .ok st
        | _ =>
            .ok { st with session := some { s with
                    appliedIce := s.appliedIce ++ batch.map (fun c => (dev, c)) } }
      else .ok st
  | none => .ok st

/-- Modelled from the spec: `received_hangup` force-transitions the matching
session to `Terminated` with the remote-hangup reason; a hangup for an
already-terminated call, or for an id that matches no session, is a no-op,
not an error. -/
def received_hangup (st : CMState) (cid : Int) (remote_device : Nat)
    (t : HangupType) (d : Nat) : Except Err CMState :=
  match st.session with
  | some s =>
      if s.call_id = cid then
        match s.state with
        | .Terminated _ => .ok st
        | _ =>
            .ok { st with session := some { s with
                    state := .Terminated (.RemoteHangup t d) } }
      else .ok st
  | none => .ok st

/-- Embedded from the source (`ringrtcReceivedHangup`, jni_call_manager.rs
line 346): the raw hangup-type integer is decoded with
`HangupType::from_i32` and an unrecognized value falls back to
`HangupType::Normal` via `unwrap_or`. -/
def ringrtcReceivedHangup (st : CMState) (cid : Int) (remote_device : Nat)
    (hangup_type : Int) (device_id : Nat) : Except Err CMState :=
  received_hangup st cid remote_device
    ((HangupType.from_i32 hangup_type).getD .Normal) device_id

/-- Embedded from the source: the distinguished sentinel returned by the
group-call client creation wrappers on failure (`group_call::INVALID_CLIENT_ID`;
its value, zero, comes from the group_call module modelled from the spec's
"distinguished INVALID_CLIENT_ID sentinel signals creation failure"). -/
def INVALID_CLIENT_ID : Int := 0

/-- Raw inputs of `ringrtcCreateGroupCallClient`: opaque byte buffers, the SFU
url, the sampling interval, and the three borrowed media-transport handles. -/
structure GroupCallParams where
  group_id : List Nat
  sfu_url : String
  hkdf_extra_info : List Nat
  audio_levels_interval_millis : Int
  peer_connection_factory : Int
  audio_track : Int
  video_track : Int
  deriving DecidableEq

/-- Raw inputs of `ringrtcCreateCallLinkCallClient`. -/
structure CallLinkCallParams where
  sfu_url : String
  auth_presentation : List Nat
  call_link_bytes : List Nat
  admin_passkey : List Nat
  hkdf_extra_info : List Nat
  audio_levels_interval_millis : Int
  peer_connection_factory : Int
  audio_track : Int
  video_track : Int
  deriving DecidableEq

/-- Modelled from the spec: creation registers the borrowed media-transport
handles by reference; a null (zero) handle is malformed input, which must be
reported as a typed error rather than a panic. -/
def GroupCallParams.malformed (p : GroupCallParams) : Bool :=
  p.peer_connection_factory = 0 || p.audio_track = 0 || p.video_track = 0

/-- Modelled from the spec: same malformed-input condition for the call-link
variant. -/
def CallLinkCallParams.malformed (p : CallLinkCallParams) : Bool :=
  p.peer_connection_factory = 0 || p.audio_track = 0 || p.video_track = 0

/-- A freshly created group-call client: lifecycle `Created`, unmuted,
normal data mode, hand lowered. -/
def newGroupClient (interval : Option Nat) : GroupClient :=
  { state := .Created
    audio_muted := false
    video_muted := false
    data_mode := .Normal
    raised_hand := false
    audio_levels_interval := interval }

/-- Modelled from the spec: `create_group_call_client` allocates a fresh
ClientId from the monotone counter, binds the sampling interval, and fails
with a typed error on malformed input. -/
def create_group_call_client (st : CMState) (p : GroupCallParams) :
    Except Err (CMState × Nat) :=
  if p.malformed then .error .AllocationFailed
  else
    .ok ({ st with
            clients := (st.nextClientId,
              newGroupClient (audio_levels_interval_of p.audio_levels_interval_millis))
              :: st.clients
            nextClientId := st.nextClientId + 1 },
         st.nextClientId)

/-- Modelled from the spec: `create_call_link_call_client`, same allocation
discipline as `create_group_call_client`. -/
def create_call_link_call_client (st : CMState) (p : CallLinkCallParams) :
    Except Err (CMState × Nat) :=
  if p.malformed then .error .AllocationFailed
  else
    .ok ({ st with
            clients := (st.nextClientId,
              newGroupClient (audio_levels_interval_of p.audio_levels_interval_millis))
              :: st.clients
            nextClientId := st.nextClientId + 1 },
         st.nextClientId)

/-- Embedded from the source (`ringrtcCreateGroupCallClient`, jni_call_manager.rs
lines 744-750): a successful creation returns the new ClientId as a jlong, a
failure throws the typed error to Java and returns `INVALID_CLIENT_ID`. -/
def ringrtcCreateGroupCallClient (st : CMState) (p : GroupCallParams) :
    CMState × Int :=
  match create_group_call_client st p with
  | .ok (st2, v) => (st2, (v : Int))
  | .error _ => (st, INVALID_CLIENT_ID)

/-- Embedded from the source (`ringrtcCreateCallLinkCallClient`,
jni_call_manager.rs lines 781-787): same sentinel discipline. -/
def ringrtcCreateCallLinkCallClient (st : CMState) (p : CallLinkCallParams) :
    CMState × Int :=
  match create_call_link_call_client st p with
  | .ok (st2, v) => (st2, (v : Int))
  | .error _ => (st, INVALID_CLIENT_ID)

/-- Modelled from the spec: every id-referencing group-call operation resolves
the ClientId in the registry first; an unknown id fails with `UnknownClient`,
otherwise the client is transformed and stored back (errors leave the
registry untouched). -/
def withClient (st : CMState) (cid : Nat)
    (f : GroupClient → Except Err GroupClient) : Except Err CMState :=
  match lookupClient st.clients cid with
  | none => .error .UnknownClient
  | some c =>
      match f c with
      | .error e => .error e
      | .ok c2 => .ok { st with clients := updateClient st.clients cid c2 }

/-- Modelled from the spec: `connect` requires lifecycle `Created`. -/
def connect (st : CMState) (cid : Nat) : Except Err CMState :=
  withClient st cid fun c =>
    if c.state = .Created then .ok { c with state := .GConnecting }
    else .error .InvalidState

/-- Modelled from the spec: `join` requires having reached `Connected`. -/
def join (st : CMState) (cid : Nat) : Except Err CMState :=
  withClient st cid fun c =>
    if c.state = .GConnected then .ok { c with state := .Joining }
    else .error .InvalidState

/-- Modelled from the spec: `leave` moves a joining/joined client toward
`Ended`. -/
def leave (st : CMState) (cid : Nat) : Except Err CMState :=
  withClient st cid fun c =>
    match c.state with
    | .Joining | .Joined | .GReconnecting => .ok { c with state := .Ended }
    | _ => .error .InvalidState

/-- Modelled from the spec: `disconnect` ends a connecting/connected client. -/
def disconnect (st : CMState) (cid : Nat) : Except Err CMState :=
  withClient st cid fun c =>
    match c.state with
    | .GConnecting | .GConnected => .ok { c with state := .Ended }
    | _ => .error .InvalidState

/-- Modelled from the spec: mute flags apply immediately, independent of
lifecycle state. -/
def set_outgoing_audio_muted (st : CMState) (cid : Nat) (m : Bool) :
    Except Err CMState :=
  withClient st cid fun c => .ok { c with audio_muted := m }

/-- Modelled from the spec: mute flags apply immediately, independent of
lifecycle state. -/
def set_outgoing_video_muted (st : CMState) (cid : Nat) (m : Bool) :
    Except Err CMState :=
  withClient st cid fun c => .ok { c with video_muted := m }

/-- Modelled from the spec: `set_data_mode` applies immediately. -/
def set_data_mode (st : CMState) (cid : Nat) (dm : DataMode) :
    Except Err CMState :=
  withClient st cid fun c => .ok { c with data_mode := dm }

/-- Modelled from the spec: `delete_group_call_client` is only valid once the
client has reached `Ended`; an unknown id fails with `UnknownClient`, a
not-yet-ended client with `InvalidState`; success removes the id, which the
monotone allocation counter never hands out again. -/
def delete_group_call_client (st : CMState) (cid : Nat) : Except Err CMState :=
  match lookupClient st.clients cid with
  | none => .error .UnknownClient
  | some c =>
      if c.state = .Ended then
        .ok { st with clients := removeClient st.clients cid }
      else .error .InvalidState

/-- Modelled from the spec: `read_call_link` allocates a correlator entry under
the caller-supplied request id; reusing a live request id fails with
`DuplicateRequest`. -/
def read_call_link (st : CMState) (rid : Int) : Except Err CMState :=
  match lookupPending st.pending rid with
  | some _ => .error .DuplicateRequest
  | none => .ok { st with pending := st.pending ++ [(rid, .HttpCorrelated)] }

/-- Modelled from the spec: `peek_group_call` registers a pending peek query
under the request id, with the same uniqueness requirement. -/
def peek_group_call (st : CMState) (rid : Int) : Except Err CMState :=
  match lookupPending st.pending rid with
  | some _ => .error .DuplicateRequest
  | none => .ok { st with pending := st.pending ++ [(rid, .PeekQuery)] }

/-- Modelled from the spec: `peek_call_link_call` registers a pending peek
query under the request id, with the same uniqueness requirement. -/
def peek_call_link_call (st : CMState) (rid : Int) : Except Err CMState :=
  match lookupPending st.pending rid with
  | some _ => .error .DuplicateRequest
  | none => .ok { st with pending := st.pending ++ [(rid, .PeekQuery)] }

/-- Modelled from the spec: `received_http_response` resolves the pending
entry for the request id; an unknown id is a logged no-op, not a fatal
error, since responses can race against local cancellation. -/
def received_http_response (st : CMState) (rid : Int) : Except Err CMState :=
  match lookupPending st.pending rid with
  | some _ => .ok { st with pending := removePending st.pending rid }
  | none => .ok st

/-- Modelled from the spec: `http_request_failed` fails the pending entry for
the request id; an unknown id is a logged no-op. -/
def http_request_failed (st : CMState) (rid : Int) : Except Err CMState :=
  match lookupPending st.pending rid with
  | some _ => .ok { st with pending := removePending st.pending rid }
  | none => .ok st

/-- Modelled from the spec: `RingId::from_era_id` derives a RingId
deterministically from the era identifier string by a stable 64-bit hash
(the concrete digest used by the group_call module is not among the provided
sources; a 64-bit polynomial rolling hash stands in for it). -/
def RingId.from_era_id (era : String) : Nat :=
  era.data.foldl (fun h c => (h * 31 + c.toNat) % (2 ^ 64)) 7

/-- Number of live call sessions tracked for a given call id (the model keeps
at most one session at all). -/
def sessionsWithId (st : CMState) (cid : Int) : Nat :=
  match st.session with
  | some s => if s.call_id = cid then 1 else 0
  | none => 0

/-- The alphabet of group-call registry operations reachable from the JNI
surface, used to quantify over "every subsequent operation". -/
inductive GCOp where
  | createGroup (p : GroupCallParams)
  | createLink (p : CallLinkCallParams)
  | del (cid : Nat)
  | connect (cid : Nat)
  | join (cid : Nat)
  | leave (cid : Nat)
  | disconnect (cid : Nat)
  | setAudioMuted (cid : Nat) (m : Bool)
  | setVideoMuted (cid : Nat) (m : Bool)
  | setDataMode (cid : Nat) (dm : DataMode)

/-- Run one registry operation the way the JNI surface does: apply the new
state on success, keep the old state when the typed error is thrown. -/
def runOp (st : CMState) : GCOp → CMState
  | .createGroup p => (ringrtcCreateGroupCallClient st p).1
  | .createLink p => (ringrtcCreateCallLinkCallClient st p).1
  | .del cid => applyResult st (delete_group_call_client st cid)
  | .connect cid => applyResult st (connect st cid)
  | .join cid => applyResult st (join st cid)
  | .leave cid => applyResult st (leave st cid)
  | .disconnect cid => applyResult st (disconnect st cid)
  | .setAudioMuted cid m => applyResult st (set_outgoing_audio_muted st cid m)
  | .setVideoMuted cid m => applyResult st (set_outgoing_video_muted st cid m)
  | .setDataMode cid dm => applyResult st (set_data_mode st cid dm)

/-- Registry well-formedness: every registered client id was allocated below
the monotone counter. -/
def idsBelow (st : CMState) : Prop :=
  ∀ p ∈ st.clients, p.1 < st.nextClientId

/-- A deleted (or never-allocated) client id: absent from the registry and
below the allocation counter, so no later creation can hand it out again. -/
def ClientAbsent (st : CMState) (cid : Nat) : Prop :=
  lookupClient st.clients cid = none ∧ cid < st.nextClientId

/-- The flat arrival order of a sequence of ICE signaling batches: batch after
batch, each batch's candidates in order, tagged with the sending device. -/
def iceArrivals (es : List (Nat × List Nat)) : List (Nat × Nat) :=
  es.flatMap fun e => e.2.map fun c => (e.1, c)

/-- Deliver a sequence of ICE signaling batches through the JNI surface
(`received_ice` never fails, stale batches are dropped). -/
def feedIce (st : CMState) (cid : Int) (es : List (Nat × List Nat)) : CMState :=
  es.foldl (fun st2 e => applyResult st2 (received_ice st2 cid e.1 e.2)) st

section Examples

/-- A session in `Proceeding` used to instantiate the theorems. -/
def exSession : CallSession :=
  { call_id := 7
    media_type := .Video
    local_device := 3
    data_mode := .Normal
    audio_levels_interval := none
    state := .Proceeding
    pendingIce := []
    appliedIce := [] }

/-- An orchestrator with one active (non-terminal) 1:1 session. -/
def exActive : CMState :=
  { session := some exSession
    clients := []
    nextClientId := 1
    pending := []
    nextCallId := 8 }

/-- `exActive` after a remote hangup terminated the session. -/
def exTerm : CMState :=
  { exActive with
      session := some { exSession with state := .Terminated (.RemoteHangup .Normal 2) } }

/-- An orchestrator with one live pending request under id 42. -/
def exPending : CMState :=
  { session := none
    clients := []
    nextClientId := 1
    pending := [(42, .HttpCorrelated)]
    nextCallId := 0 }

/-- Well-formed creation parameters. -/
def pGood : GroupCallParams :=
  { group_id := [1, 2]
    sfu_url := "sfu.example.org"
    hkdf_extra_info := []
    audio_levels_interval_millis := 200
    peer_connection_factory := 11
    audio_track := 12
    video_track := 13 }

/-- Malformed creation parameters (null factory handle). -/
def pBad : GroupCallParams := { pGood with peer_connection_factory := 0 }

/-- Well-formed call-link creation parameters. -/
def qGood : CallLinkCallParams :=
  { sfu_url := "sfu.example.org"
    auth_presentation := [9]
    call_link_bytes := [8]
    admin_passkey := [7]
    hkdf_extra_info := []
    audio_levels_interval_millis := 0
    peer_connection_factory := 21
    audio_track := 22
    video_track := 23 }

/-- Malformed call-link creation parameters (null audio track handle). -/
def qBad : CallLinkCallParams := { qGood with audio_track := 0 }

/-- A group-call client that has not reached `Ended`. -/
def exClientLive : GroupClient := newGroupClient none

/-- A group-call client in `Ended`, ready for deletion. -/
def exClientEnded : GroupClient := { newGroupClient none with state := .Ended }

/-- Registry holding one live client under id 1. -/
def exRegLive : CMState :=
  { session := none
    clients := [(1, exClientLive)]
    nextClientId := 2
    pending := []
    nextCallId := 0 }

/-- Registry holding one ended client under id 1. -/
def exRegEnded : CMState :=
  { session := none
    clients := [(1, exClientEnded)]
    nextClientId := 2
    pending := []
    nextCallId := 0 }

/-- `exRegEnded` after deleting client 1. -/
def exRegDeleted : CMState :=
  { session := none
    clients := []
    nextClientId := 2
    pending := []
    nextCallId := 0 }

end Examples

/-- C1: at most one call session (and hence at most one with any given call
id) exists at any time, and invoking `call` while a non-terminal session is
active fails with `InvalidState`, leaving the orchestrator unchanged — no
second session is created. -/
theorem call_second_invalid_state (st : CMState) (s : CallSession)
    (mt : CallMediaType) (ld : Nat)
    (h1 : st.session = some s) (h2 : s.state.isTerminal = false) :
    call st mt ld = .error .InvalidState ∧
    applyResult st (call st mt ld) = st ∧
    ∀ cid : Int, sessionsWithId st cid ≤ 1 := by
  refine ⟨?_, ?_, ?_⟩
  · unfold call
    rw [h1]
    simp [h2]
  · unfold call
    rw [h1]
    simp [h2, applyResult]
  · intro cid
    unfold sessionsWithId
    rw [h1]
    by_cases hc : s.call_id = cid <;> simp [hc]

/-- Witness for C1 at a concrete orchestrator with an active session. -/
theorem call_second_invalid_state_witness :
    call exActive .Audio 2 = .error .InvalidState ∧
    applyResult exActive (call exActive .Audio 2) = exActive ∧
    ∀ cid : Int, sessionsWithId exActive cid ≤ 1 :=
  call_second_invalid_state exActive exSession .Audio 2 rfl rfl

/-- C2: `received_hangup` is idempotent — whatever a first application for a
call id produced (in particular once the call is `Terminated`), a second
application for the same call id leaves the state unchanged and signals no
error. -/
theorem received_hangup_idempotent (st st2 : CMState) (cid : Int)
    (rd : Nat) (ht : HangupType) (d : Nat)
    (rd2 : Nat) (ht2 : HangupType) (d2 : Nat)
    (h : received_hangup st cid rd ht d = .ok st2) :
    received_hangup st2 cid rd2 ht2 d2 = .ok st2 := by
  cases hs : st.session with
  | none =>
      simp only [received_hangup, hs, Except.ok.injEq] at h
      subst h
      simp [received_hangup, hs]
  | some s =>
      by_cases hid : s.call_id = cid
      · cases hst : s.state <;>
          · simp only [received_hangup, hs, hst, hid, if_true, eq_self_iff_true,
              Except.ok.injEq] at h
            subst h
            simp [received_hangup, hs, hst, hid]
      · simp only [received_hangup, hs, hid, if_false, Except.ok.injEq] at h
        subst h
        simp [received_hangup, hs, hid]

/-- Witness for C2: a second remote hangup on the already-terminated example
call is a no-op. -/
theorem received_hangup_idempotent_witness :
    received_hangup exTerm 7 2 .Normal 2 = .ok exTerm :=
  received_hangup_idempotent exActive exTerm 7 2 .Normal 2 2 .Normal 2 (by rfl)

/-- C3: `proceed` succeeds from `Proceeding` for every raw interval value; a
non-positive `audio_levels_interval_millis` disables audio-level sampling
while a positive one configures exactly that many milliseconds. -/
theorem proceed_audio_levels_interval (st : CMState) (s : CallSession)
    (cid : Int) (dm : DataMode) (m : Int)
    (h1 : st.session = some s) (h2 : s.call_id = cid) (h3 : s.state = .Proceeding) :
    ∃ st2 s2, ringrtcProceed st cid dm m = .ok st2 ∧ st2.session = some s2 ∧
      (m ≤ 0 → s2.audio_levels_interval = none) ∧
      (0 < m → s2.audio_levels_interval = some m.toNat) := by
  have hp : ringrtcProceed st cid dm m = .ok { st with session := some { s with
      state := .Connecting
      data_mode := dm
      audio_levels_interval := audio_levels_interval_of m
      appliedIce := s.appliedIce ++ s.pendingIce
      pendingIce := [] } } := by
    simp [ringrtcProceed, proceed, h1, h2, h3]
  refine ⟨_, _, hp, rfl, ?_, ?_⟩
  · intro hm
    simp [audio_levels_interval_of, hm]
  · intro hm
    simp only [audio_levels_interval_of]
    rw [if_neg (by omega)]

/-- Witness for C3 at the example session with a disabling interval. -/
theorem proceed_audio_levels_interval_witness :
    ∃ st2 s2, ringrtcProceed exActive 7 .Normal 0 = .ok st2 ∧
      st2.session = some s2 ∧
      ((0 : Int) ≤ 0 → s2.audio_levels_interval = none) ∧
      ((0 : Int) < 0 → s2.audio_levels_interval = some (0 : Int).toNat) :=
  proceed_audio_levels_interval exActive exSession 7 .Normal 0 rfl rfl rfl

/-- C7: issuing a call-link read or a peek request that reuses a request id
with a live pending entry fails with `DuplicateRequest` and leaves the
correlator (and the pending entry) unchanged. -/
theorem duplicate_request_id (st : CMState) (rid : Int) (k : PendingKind)
    (h : lookupPending st.pending rid = some k) :
    read_call_link st rid = .error .DuplicateRequest ∧
    peek_group_call st rid = .error .DuplicateRequest ∧
    peek_call_link_call st rid = .error .DuplicateRequest ∧
    applyResult st (read_call_link st rid) = st ∧
    lookupPending (applyResult st (read_call_link st rid)).pending rid = some k := by
  unfold read_call_link peek_group_call peek_call_link_call
  rw [h]
  exact ⟨rfl, rfl, rfl, rfl, h⟩

/-- Witness for C7: reusing live request id 42 fails with `DuplicateRequest`. -/
theorem duplicate_request_id_witness :
    read_call_link exPending 42 = .error .DuplicateRequest ∧
    peek_group_call exPending 42 = .error .DuplicateRequest ∧
    peek_call_link_call exPending 42 = .error .DuplicateRequest ∧
    applyResult exPending (read_call_link exPending 42) = exPending ∧
    lookupPending (applyResult exPending (read_call_link exPending 42)).pending 42 =
      some .HttpCorrelated :=
  duplicate_request_id exPending 42 .HttpCorrelated rfl

/-- C9: resolving a request id with no pending correlator entry, through
`received_http_response` or `http_request_failed`, is a no-op and is not
surfaced as an error. -/
theorem unknown_request_id_noop (st : CMState) (rid : Int)
    (h : lookupPending st.pending rid = none) :
    received_http_response st rid = .ok st ∧
    http_request_failed st rid = .ok st := by
  unfold received_http_response http_request_failed
  rw [h]
  exact ⟨rfl, rfl⟩

/-- Witness for C9 at a request id with no pending entry. -/
theorem unknown_request_id_noop_witness :
    received_http_response exPending 43 = .ok exPending ∧
    http_request_failed exPending 43 = .ok exPending :=
  unknown_request_id_noop exPending 43 rfl

/-- C10: a raw hangup-type integer that decodes to no known variant is not an
error: the wrapper substitutes `HangupType.Normal` and processes the hangup
exactly as a Normal hangup, always succeeding. -/
theorem unknown_hangup_type_normal (i : Int) (st : CMState) (cid : Int)
    (rd dd : Nat) (h : HangupType.from_i32 i = none) :
    ringrtcReceivedHangup st cid rd i dd = received_hangup st cid rd .Normal dd ∧
    ∃ st2, ringrtcReceivedHangup st cid rd i dd = .ok st2 := by
  have hgd : (HangupType.from_i32 i).getD .Normal = .Normal := by rw [h]; rfl
  constructor
  · unfold ringrtcReceivedHangup
    rw [hgd]
  · unfold ringrtcReceivedHangup
    rw [hgd]
    unfold received_hangup
    cases hs : st.session with
    | none => exact ⟨st, rfl⟩
    | some s =>
        by_cases hid : s.call_id = cid
        · cases hst : s.state <;> simp [hid, hst]
        · simp [hid]

/-- Witness for C10 at the unrecognized wire value 99. -/
theorem unknown_hangup_type_normal_witness :
    ringrtcReceivedHangup exActive 7 2 99 2 = received_hangup exActive 7 2 .Normal 2 ∧
    ∃ st2, ringrtcReceivedHangup exActive 7 2 99 2 = .ok st2 :=
  unknown_hangup_type_normal 99 exActive 7 2 2 (by rfl)

/-- C8: `RingId.from_era_id` is deterministic — equal era-id strings always
yield equal RingId values — and distinct strings yield distinct values (shown
on a concrete pair; the "overwhelming probability" collision bound of the
underlying digest is a probabilistic statement outside this model). -/
theorem from_era_id_deterministic :
    (∀ s t : String, s = t → RingId.from_era_id s = RingId.from_era_id t) ∧
    RingId.from_era_id "era-2024-a" ≠ RingId.from_era_id "era-2024-b" := by
  refine ⟨fun s t h => by rw [h], ?_⟩
  decide

/-- Witness for C8: determinism applied at a concrete era id. -/
theorem from_era_id_deterministic_witness :
    RingId.from_era_id "era-2024-a" = RingId.from_era_id "era-2024-a" :=
  from_era_id_deterministic.1 "era-2024-a" "era-2024-a" rfl

/-- C4: both client-creation wrappers return the distinguished
`INVALID_CLIENT_ID` sentinel (with the typed error thrown, the registry
untouched) when creation fails, and on success return a ClientId distinct
from the sentinel. -/
theorem create_client_sentinel (st : CMState) (p : GroupCallParams)
    (q : CallLinkCallParams) (h : 0 < st.nextClientId) :
    (p.malformed = true →
      (ringrtcCreateGroupCallClient st p).2 = INVALID_CLIENT_ID ∧
      (ringrtcCreateGroupCallClient st p).1 = st) ∧
    (p.malformed = false →
      (ringrtcCreateGroupCallClient st p).2 ≠ INVALID_CLIENT_ID) ∧
    (q.malformed = true →
      (ringrtcCreateCallLinkCallClient st q).2 = INVALID_CLIENT_ID ∧
      (ringrtcCreateCallLinkCallClient st q).1 = st) ∧
    (q.malformed = false →
      (ringrtcCreateCallLinkCallClient st q).2 ≠ INVALID_CLIENT_ID) := by
  refine ⟨?_, ?_, ?_, ?_⟩
  · intro hm
    simp [ringrtcCreateGroupCallClient, create_group_call_client, hm]
  · intro hm
    simp only [ringrtcCreateGroupCallClient, create_group_call_client, hm,
      Bool.false_eq_true, if_false, INVALID_CLIENT_ID]
    intro hz
    omega
  · intro hm
    simp [ringrtcCreateCallLinkCallClient, create_call_link_call_client, hm]
  · intro hm
    simp only [ringrtcCreateCallLinkCallClient, create_call_link_call_client, hm,
      Bool.false_eq_true, if_false, INVALID_CLIENT_ID]
    intro hz
    omega

/-- Witness for C4: malformed parameters yield the sentinel, well-formed ones
a distinct id. -/
theorem create_client_sentinel_witness :
    ((ringrtcCreateGroupCallClient exActive pBad).2 = INVALID_CLIENT_ID ∧
      (ringrtcCreateGroupCallClient exActive pBad).1 = exActive) ∧
    (ringrtcCreateGroupCallClient exActive pGood).2 ≠ INVALID_CLIENT_ID ∧
    ((ringrtcCreateCallLinkCallClient exActive qBad).2 = INVALID_CLIENT_ID ∧
      (ringrtcCreateCallLinkCallClient exActive qBad).1 = exActive) ∧
    (ringrtcCreateCallLinkCallClient exActive qGood).2 ≠ INVALID_CLIENT_ID :=
  ⟨(create_client_sentinel exActive pBad qBad (by decide)).1 rfl,
   (create_client_sentinel exActive pGood qGood (by decide)).2.1 rfl,
   (create_client_sentinel exActive pBad qBad (by decide)).2.2.1 rfl,
   (create_client_sentinel exActive pGood qGood (by decide)).2.2.2 rfl⟩

/-- Feeding ICE batches to a session that is still in `Proceeding` buffers
them, batch after batch, in arrival order. -/
theorem feedIce_proceeding (cid : Int) (es : List (Nat × List Nat)) :
    ∀ (st : CMState) (s : CallSession), st.session = some s →
      s.state = .Proceeding → s.call_id = cid →
      (feedIce st cid es) =
        { st with session := some { s with pendingIce := s.pendingIce ++ iceArrivals es } } := by
  induction es with
  | nil =>
      intro st s h1 _ _
      simp [feedIce, iceArrivals, ← h1]
  | cons e es ih =>
      intro st s h1 h2 h3
      have hstep : applyResult st (received_ice st cid e.1 e.2) =
          { st with session := some { s with
              pendingIce := s.pendingIce ++ e.2.map (fun c => (e.1, c)) } } := by
        simp [received_ice, applyResult, h1, h2, h3]
      have hfold : feedIce st cid (e :: es) =
          feedIce (applyResult st (received_ice st cid e.1 e.2)) cid es := rfl
      rw [hfold, hstep,
        ih _ { s with pendingIce := s.pendingIce ++ e.2.map (fun c => (e.1, c)) }
          rfl h2 h3]
      simp [iceArrivals]

/-- C6: ICE candidates received while the call has not yet reached
`Connecting` are buffered and, once `proceed` moves the session to
`Connecting`, applied in their original arrival order; consequently, for any
device, any re-interleaving of the signaling batches across devices that
preserves that device's own arrival order leads to the same applied order
for that device. -/
theorem ice_buffered_in_order (st : CMState) (s : CallSession) (cid : Int)
    (es : List (Nat × List Nat)) (dm : DataMode) (m : Int)
    (h1 : st.session = some s) (h2 : s.call_id = cid)
    (h3 : s.state = .Proceeding) (h4 : s.pendingIce = []) :
    ∃ st2 s2, ringrtcProceed (feedIce st cid es) cid dm m = .ok st2 ∧
      st2.session = some s2 ∧
      s2.appliedIce = s.appliedIce ++ iceArrivals es ∧
      ∀ (d : Nat) (es2 : List (Nat × List Nat)),
        (iceArrivals es2).filter (fun pr => pr.1 == d) =
          (iceArrivals es).filter (fun pr => pr.1 == d) →
        ∀ st3 s3, ringrtcProceed (feedIce st cid es2) cid dm m = .ok st3 →
          st3.session = some s3 →
          s3.appliedIce.filter (fun pr => pr.1 == d) =
            s2.appliedIce.filter (fun pr => pr.1 == d) := by
  have key : ∀ (es1 : List (Nat × List Nat)),
      ringrtcProceed (feedIce st cid es1) cid dm m =
        .ok { st with session := some { s with
                state := .Connecting
                data_mode := dm
                audio_levels_interval := audio_levels_interval_of m
                appliedIce := s.appliedIce ++ iceArrivals es1
                pendingIce := [] } } := by
    intro es1
    rw [feedIce_proceeding cid es1 st s h1 h3 h2]
    simp [ringrtcProceed, proceed, h2, h3, h4]
  refine ⟨_, _, key es, rfl, rfl, ?_⟩
  intro d es2 hfil st3 s3 hp3 hs3
  rw [key es2] at hp3
  cases hp3
  simp only at hs3
  cases hs3
  simp [List.filter_append, hfil]

/-- Witness for C6 at a concrete interleaving of batches from devices 1
and 2. -/
theorem ice_buffered_in_order_witness :
    ∃ st2 s2,
      ringrtcProceed (feedIce exActive 7 [(1, [10, 11]), (2, [20]), (1, [12])]) 7
        .Normal 5 = .ok st2 ∧
      st2.session = some s2 ∧
      s2.appliedIce = exSession.appliedIce ++
        iceArrivals [(1, [10, 11]), (2, [20]), (1, [12])] ∧
      ∀ (d : Nat) (es2 : List (Nat × List Nat)),
        (iceArrivals es2).filter (fun pr => pr.1 == d) =
          (iceArrivals [(1, [10, 11]), (2, [20]), (1, [12])]).filter
            (fun pr => pr.1 == d) →
        ∀ st3 s3,
          ringrtcProceed (feedIce exActive 7 es2) 7 .Normal 5 = .ok st3 →
          st3.session = some s3 →
          s3.appliedIce.filter (fun pr => pr.1 == d) =
            s2.appliedIce.filter (fun pr => pr.1 == d) :=
  ice_buffered_in_order exActive exSession 7 [(1, [10, 11]), (2, [20]), (1, [12])]
    .Normal 5 rfl rfl rfl rfl

/-- Removing an id makes its lookup fail. -/
theorem lookupClient_remove_self (l : List (Nat × GroupClient)) (cid : Nat) :
    lookupClient (removeClient l cid) cid = none := by
  induction l with
  | nil => rfl
  | cons p rest ih =>
      obtain ⟨i, c⟩ := p
      by_cases hi : i = cid
      · simp [removeClient, hi, ih]
      · simp [removeClient, lookupClient, hi, ih]

/-- Removal never makes an absent id present. -/
theorem lookupClient_remove_none (l : List (Nat × GroupClient)) (x cid : Nat)
    (h : lookupClient l cid = none) :
    lookupClient (removeClient l x) cid = none := by
  induction l with
  | nil => rfl
  | cons p rest ih =>
      obtain ⟨i, c⟩ := p
      by_cases hi : i = cid
      · simp [lookupClient, hi] at h
      · simp only [lookupClient, if_neg hi] at h
        by_cases hx : i = x
        · simp [removeClient, hx, ih h]
        · simp [removeClient, hx, lookupClient, hi, ih h]

/-- Updating some id never makes an absent id present. -/
theorem lookupClient_update_none (l : List (Nat × GroupClient)) (x cid : Nat)
    (c2 : GroupClient) (h : lookupClient l cid = none) :
    lookupClient (updateClient l x c2) cid = none := by
  induction l with
  | nil => rfl
  | cons p rest ih =>
      obtain ⟨i, c⟩ := p
      by_cases hi : i = cid
      · simp [lookupClient, hi] at h
      · simp only [lookupClient, if_neg hi] at h
        by_cases hx : i = x
        · simp [updateClient, hx, lookupClient, hx ▸ hi, ih h]
        · simp [updateClient, hx, lookupClient, hi, ih h]

/-- A successful lookup exhibits the registry entry. -/
theorem lookupClient_some_mem (l : List (Nat × GroupClient)) (cid : Nat)
    (c : GroupClient) (h : lookupClient l cid = some c) : (cid, c) ∈ l := by
  induction l with
  | nil => cases h
  | cons p rest ih =>
      obtain ⟨i, c1⟩ := p
      by_cases hi : i = cid
      · simp only [lookupClient, if_pos hi, Option.some.injEq] at h
        subst hi
        subst h
        exact List.mem_cons_self ..
      · simp only [lookupClient, if_neg hi] at h
        exact List.mem_cons_of_mem _ (ih h)

/-- Prepending an entry under a different id preserves a failing lookup. -/
theorem lookupClient_cons_ne (i : Nat) (c : GroupClient)
    (l : List (Nat × GroupClient)) (cid : Nat) (h : i ≠ cid)
    (h2 : lookupClient l cid = none) :
    lookupClient ((i, c) :: l) cid = none := by
  simp [lookupClient, h, h2]

/-- An id-referencing operation on an absent id fails with `UnknownClient`. -/
theorem withClient_unknown (st : CMState) (cid : Nat)
    (f : GroupClient → Except Err GroupClient)
    (h : lookupClient st.clients cid = none) :
    withClient st cid f = .error .UnknownClient := by
  unfold withClient
  rw [h]

/-- Absence of a deleted id (absent and below the allocation counter) is
preserved by every operation of the JNI registry surface. -/
theorem clientAbsent_runOp (st : CMState) (cid : Nat) (op : GCOp)
    (h : ClientAbsent st cid) : ClientAbsent (runOp st op) cid := by
  obtain ⟨habs, hlt⟩ := h
  have hwc : ∀ (x : Nat) (f : GroupClient → Except Err GroupClient),
      ClientAbsent (applyResult st (withClient st x f)) cid := by
    intro x f
    cases hl : lookupClient st.clients x with
    | none =>
        have heq : withClient st x f = .error .UnknownClient := by
          simp [withClient, hl]
        rw [heq]
        exact ⟨habs, hlt⟩
    | some c =>
        cases hf : f c with
        | error e =>
            have heq : withClient st x f = .error e := by
              simp [withClient, hl, hf]
            rw [heq]
            exact ⟨habs, hlt⟩
        | ok c2 =>
            have heq : withClient st x f =
                .ok { st with clients := updateClient st.clients x c2 } := by
              simp [withClient, hl, hf]
            rw [heq]
            exact ⟨lookupClient_update_none _ _ _ _ habs, hlt⟩
  cases op with
  | createGroup p =>
      by_cases hm : p.malformed = true
      · have heq : runOp st (.createGroup p) = st := by
          simp [runOp, ringrtcCreateGroupCallClient, create_group_call_client, hm]
        rw [heq]
        exact ⟨habs, hlt⟩
      · have heq : runOp st (.createGroup p) = { st with
            clients := (st.nextClientId,
              newGroupClient (audio_levels_interval_of p.audio_levels_interval_millis))
              :: st.clients
            nextClientId := st.nextClientId + 1 } := by
          simp [runOp, ringrtcCreateGroupCallClient, create_group_call_client, hm]
        rw [heq]
        exact ⟨lookupClient_cons_ne _ _ _ _ (by omega) habs, Nat.lt_succ_of_lt hlt⟩
  | createLink p =>
      by_cases hm : p.malformed = true
      · have heq : runOp st (.createLink p) = st := by
          simp [runOp, ringrtcCreateCallLinkCallClient, create_call_link_call_client, hm]
        rw [heq]
        exact ⟨habs, hlt⟩
      · have heq : runOp st (.createLink p) = { st with
            clients := (st.nextClientId,
              newGroupClient (audio_levels_interval_of p.audio_levels_interval_millis))
              :: st.clients
            nextClientId := st.nextClientId + 1 } := by
          simp [runOp, ringrtcCreateCallLinkCallClient, create_call_link_call_client, hm]
        rw [heq]
        exact ⟨lookupClient_cons_ne _ _ _ _ (by omega) habs, Nat.lt_succ_of_lt hlt⟩
  | del x =>
      cases hl : lookupClient st.clients x with
      | none =>
          have heq : runOp st (.del x) = st := by
            simp [runOp, delete_group_call_client, hl, applyResult]
          rw [heq]
          exact ⟨habs, hlt⟩
      | some c =>
          by_cases he : c.state = .Ended
          · have heq : runOp st (.del x) =
                { st with clients := removeClient st.clients x } := by
              simp [runOp, delete_group_call_client, hl, he, applyResult]
            rw [heq]
            exact ⟨lookupClient_remove_none _ _ _ habs, hlt⟩
          · have heq : runOp st (.del x) = st := by
              simp [runOp, delete_group_call_client, hl, he, applyResult]
            rw [heq]
            exact ⟨habs, hlt⟩
  | connect x => exact hwc x _
  | join x => exact hwc x _
  | leave x => exact hwc x _
  | disconnect x => exact hwc x _
  | setAudioMuted x m => exact hwc x _
  | setVideoMuted x m => exact hwc x _
  | setDataMode x dm => exact hwc x _

/-- Absence of a deleted id is preserved by every sequence of registry
operations. -/
theorem clientAbsent_foldl (ops : List GCOp) :
    ∀ (st : CMState) (cid : Nat), ClientAbsent st cid →
      ClientAbsent (ops.foldl runOp st) cid := by
  induction ops with
  | nil => exact fun st cid h => h
  | cons op ops ih =>
      intro st cid h
      exact ih _ _ (clientAbsent_runOp st cid op h)

/-- C5: deleting a group-call client that has not reached `Ended` fails with
`InvalidState` and leaves the registry unchanged; after a successful
deletion, the ClientId is never resolved again — after any sequence of
further registry operations, every operation referencing it (the generic
id-referencing combinator, deletion, `connect`, `join`) fails with
`UnknownClient`. -/
theorem delete_group_call_client_contract (st st2 : CMState) (cid : Nat)
    (c : GroupClient) (hwf : idsBelow st)
    (hl : lookupClient st.clients cid = some c) :
    (c.state ≠ .Ended →
      delete_group_call_client st cid = .error .InvalidState ∧
      applyResult st (delete_group_call_client st cid) = st) ∧
    (delete_group_call_client st cid = .ok st2 →
      ∀ ops : List GCOp,
        lookupClient ((ops.foldl runOp st2).clients) cid = none ∧
        (∀ f, withClient (ops.foldl runOp st2) cid f = .error .UnknownClient) ∧
        delete_group_call_client (ops.foldl runOp st2) cid = .error .UnknownClient ∧
        connect (ops.foldl runOp st2) cid = .error .UnknownClient ∧
        join (ops.foldl runOp st2) cid = .error .UnknownClient) := by
  constructor
  · intro hne
    simp [delete_group_call_client, hl, hne, applyResult]
  · intro hdel ops
    have hlt : cid < st.nextClientId := hwf (cid, c) (lookupClient_some_mem _ _ _ hl)
    have hst2 : st2.clients = removeClient st.clients cid ∧
        st2.nextClientId = st.nextClientId := by
      simp only [delete_group_call_client, hl] at hdel
      by_cases he : c.state = .Ended
      · rw [if_pos he] at hdel
        simp only [Except.ok.injEq] at hdel
        subst hdel
        exact ⟨rfl, rfl⟩
      · rw [if_neg he] at hdel
        simp at hdel
    have habs : ClientAbsent st2 cid := by
      refine ⟨?_, ?_⟩
      · rw [hst2.1]
        exact lookupClient_remove_self _ _
      · rw [hst2.2]
        exact hlt
    have hend := clientAbsent_foldl ops st2 cid habs
    refine ⟨hend.1, fun f => withClient_unknown _ _ f hend.1, ?_, ?_, ?_⟩
    · unfold delete_group_call_client
      rw [hend.1]
    · exact withClient_unknown _ _ _ hend.1
    · exact withClient_unknown _ _ _ hend.1

/-- Witness for C5: deleting the live client fails with `InvalidState`;
after deleting the ended client, a later `connect` (even after further
operations, including a fresh creation) fails with `UnknownClient`. -/
theorem delete_group_call_client_contract_witness :
    (delete_group_call_client exRegLive 1 = .error .InvalidState ∧
      applyResult exRegLive (delete_group_call_client exRegLive 1) = exRegLive) ∧
    lookupClient (([GCOp.connect 1, GCOp.createGroup pGood].foldl runOp
      exRegDeleted).clients) 1 = none ∧
    connect ([GCOp.connect 1, GCOp.createGroup pGood].foldl runOp exRegDeleted) 1 =
      .error .UnknownClient := by
  have h1 := (delete_group_call_client_contract exRegLive exRegDeleted 1 exClientLive
    (by intro p hp; simp [exRegLive] at hp; subst hp; decide) rfl).1 (by decide)
  have h2 := (delete_group_call_client_contract exRegEnded exRegDeleted 1 exClientEnded
    (by intro p hp; simp [exRegEnded] at hp; subst hp; decide) rfl).2 rfl
    [GCOp.connect 1, GCOp.createGroup pGood]
  exact ⟨h1, h2.1, h2.2.2.2.1⟩

end RingRTC
